import Mathlib

/-!
Verification of the token-authentication core of pyenphase (src/pyenphase/auth.py).

The Python class EnvoyTokenAuth is embedded shallowly: the mutable instance is a
Lean structure, every method is a pure function that threads the structure
explicitly and returns the exception outcome, and the HTTP collaborators
(httpx responses, the tenacity retry decorator, orjson, PyJWT) are modelled as
explicit data.  A method run returns a triple: the Python outcome (normal
return, raised exception, or divergence inside an unbounded retry loop), the
instance state after the run (Python object mutations survive a raised
exception, so the state is returned on every path), and the trace of HTTP
requests issued.
-/

/-- JSON values, as produced by orjson.loads / json.loads. -/
inductive Json where
  | null : Json
  | bool (b : Bool) : Json
  | num (n : Int) : Json
  | str (s : String) : Json
  | arr (xs : List Json) : Json
  | obj (kvs : List (String × Json)) : Json

def isWsChar (c : Char) : Bool :=
  c = ' ' || c = '\t' || c = '\n' || c = '\r'

def skipWs (cs : List Char) : List Char := cs.dropWhile isWsChar

/-- The opening curly brace character (written by code point to keep it out of
string and character literal positions). -/
def lbrace : Char := Char.ofNat 123

/-- The closing curly brace character. -/
def rbrace : Char := Char.ofNat 125

/-- Body of a JSON string literal, after the opening quote: consumes up to the
closing quote, handling the basic backslash escapes. -/
def parseStringBody : List Char → Option (String × List Char)
  | [] => none
  | '\\' :: e :: rest =>
    match (match e with
           | '"' => some '"'
           | '\\' => some '\\'
           | '/' => some '/'
           | 'n' => some '\n'
           | 't' => some '\t'
           | 'r' => some '\r'
           | _ => none) with
    | none => none
    | some c =>
      match parseStringBody rest with
      | none => none
      | some (s, r) => some (String.mk (c :: s.data), r)
  | c :: rest =>
    if c = '"' then some ("", rest)
    else
      match parseStringBody rest with
      | none => none
      | some (s, r) => some (String.mk (c :: s.data), r)

def parseNatDigits (cs : List Char) : Option (Nat × List Char) :=
  let ds := cs.takeWhile fun c => c.isDigit
  if ds.isEmpty then none
  else some (ds.foldl (fun n c => n * 10 + (c.toNat - 48)) 0, cs.drop ds.length)

/-- Mode of the fueled recursive-descent JSON parser: a single value, the items
of an array after the opening bracket, or the fields of an object after the
opening brace. -/
inductive PMode where
  | value : PMode
  | arrItems : PMode
  | objFields : PMode

inductive POut where
  | value (j : Json) : POut
  | arrItems (xs : List Json) : POut
  | objFields (kvs : List (String × Json)) : POut

/-- Fueled JSON parser (model of orjson.loads; integer numerals and the basic
string escapes — the fragment exchanged by the Enlighten endpoints). -/
def parseJ : Nat → PMode → List Char → Option (POut × List Char)
  | 0, _, _ => none
  | Nat.succ fuel, PMode.value, cs =>
    match skipWs cs with
    | [] => none
    | 'n' :: 'u' :: 'l' :: 'l' :: rest => some (POut.value Json.null, rest)
    | 't' :: 'r' :: 'u' :: 'e' :: rest => some (POut.value (Json.bool true), rest)
    | 'f' :: 'a' :: 'l' :: 's' :: 'e' :: rest => some (POut.value (Json.bool false), rest)
    | '"' :: rest =>
      match parseStringBody rest with
      | none => none
      | some (s, r) => some (POut.value (Json.str s), r)
    | '[' :: rest =>
      match skipWs rest with
      | ']' :: r2 => some (POut.value (Json.arr []), r2)
      | r2 =>
        match parseJ fuel PMode.arrItems r2 with
        | some (POut.arrItems xs, r3) => some (POut.value (Json.arr xs), r3)
        | _ => none
    | '-' :: rest =>
      match parseNatDigits rest with
      | none => none
      | some (n, r) => some (POut.value (Json.num (-(n : Int))), r)
    | c :: rest =>
      if c = lbrace then
        match skipWs rest with
        | c2 :: r2 =>
          if c2 = rbrace then some (POut.value (Json.obj []), r2)
          else
            match parseJ fuel PMode.objFields (c2 :: r2) with
            | some (POut.objFields kvs, r3) => some (POut.value (Json.obj kvs), r3)
            | _ => none
        | [] => none
      else if c.isDigit then
        match parseNatDigits (c :: rest) with
        | none => none
        | some (n, r) => some (POut.value (Json.num (n : Int)), r)
      else none
  | Nat.succ fuel, PMode.arrItems, cs =>
    match parseJ fuel PMode.value cs with
    | some (POut.value v, r) =>
      (match skipWs r with
       | ',' :: r2 =>
         match parseJ fuel PMode.arrItems r2 with
         | some (POut.arrItems xs, r3) => some (POut.arrItems (v :: xs), r3)
         | _ => none
       | ']' :: r2 => some (POut.arrItems [v], r2)
       | _ => none)
    | _ => none
  | Nat.succ fuel, PMode.objFields, cs =>
    match skipWs cs with
    | '"' :: r0 =>
      (match parseStringBody r0 with
       | none => none
       | some (k, r1) =>
         match skipWs r1 with
         | ':' :: r2 =>
           (match parseJ fuel PMode.value r2 with
            | some (POut.value v, r3) =>
              (match skipWs r3 with
               | ',' :: r4 =>
                 (match parseJ fuel PMode.objFields r4 with
                  | some (POut.objFields kvs, r5) => some (POut.objFields ((k, v) :: kvs), r5)
                  | _ => none)
               | c :: r4 =>
                 if c = rbrace then some (POut.objFields [(k, v)], r4)
                 else none
               | [] => none)
            | _ => none)
         | _ => none)
    | _ => none

/-- Parse a complete JSON document from a character list; the document must be
the whole input up to trailing whitespace (orjson rejects trailing garbage). -/
def jsonParseChars (cs : List Char) : Option Json :=
  match parseJ (cs.length + 1) PMode.value cs with
  | some (POut.value j, rest) => if (skipWs rest).isEmpty then some j else none
  | _ => none

/-- Model of orjson.loads on a Python str. -/
def jsonParse (s : String) : Option Json := jsonParseChars s.data

/-- Python exceptions that the embedded code can raise.  authError is the
EnvoyAuthenticationError of pyenphase.exceptions; the others are built-in
Python exceptions, plus jwtDecodeError for jwt.exceptions.DecodeError and
httpxError for an httpx transport exception propagating out of a request. -/
inductive HttpxErr where
  | networkError : HttpxErr
  | timeoutException : HttpxErr
  | remoteProtocolError : HttpxErr
  | otherTransportError : HttpxErr

inductive PyErr where
  | authError (msg : String) : PyErr
  | keyError (key : String) : PyErr
  | attributeError (attr : String) : PyErr
  | assertionError : PyErr
  | typeError (msg : String) : PyErr
  | jwtDecodeError : PyErr
  | httpxError (e : HttpxErr) : PyErr

/-- Python subscript d[k] with a string key: KeyError on a dict without the
key, TypeError on any non-dict JSON value. -/
def Json.subscript : Json → String → Except PyErr Json
  | Json.obj kvs, k =>
    match kvs.lookup k with
    | some v => Except.ok v
    | none => Except.error (PyErr.keyError k)
  | _, _ => Except.error (PyErr.typeError "value is not subscriptable by str")

/-- Value of a base64url alphabet character. -/
def b64UrlVal (c : Char) : Option Nat :=
  if 'A' ≤ c ∧ c ≤ 'Z' then some (c.toNat - 65)
  else if 'a' ≤ c ∧ c ≤ 'z' then some (c.toNat - 97 + 26)
  else if '0' ≤ c ∧ c ≤ '9' then some (c.toNat - 48 + 52)
  else if c = '-' then some 62
  else if c = '_' then some 63
  else none

/-- Decode unpadded base64url input four characters at a time; a final group
of two or three characters yields one or two bytes (PyJWT pads the segment to
a multiple of four before calling base64.urlsafe_b64decode, which is the same
grouping). -/
def b64Chunks : List Char → Option (List Nat)
  | [] => some []
  | [_] => none
  | [a, b] =>
    match b64UrlVal a, b64UrlVal b with
    | some va, some vb => some [va * 4 + vb / 16]
    | _, _ => none
  | [a, b, c] =>
    match b64UrlVal a, b64UrlVal b, b64UrlVal c with
    | some va, some vb, some vc => some [va * 4 + vb / 16, (vb % 16) * 16 + vc / 4]
    | _, _, _ => none
  | a :: b :: c :: d :: rest =>
    match b64UrlVal a, b64UrlVal b, b64UrlVal c, b64UrlVal d with
    | some va, some vb, some vc, some vd =>
      match b64Chunks rest with
      | none => none
      | some tail =>
        some ([va * 4 + vb / 16, (vb % 16) * 16 + vc / 4, (vc % 4) * 64 + vd] ++ tail)
    | _, _, _, _ => none

/-- Model of the base64url decoding of a JWT segment, the decoded bytes
returned as characters (the payloads in scope are ASCII JSON). -/
def base64urlDecode (cs : List Char) : Option (List Char) :=
  match b64Chunks cs with
  | none => none
  | some bs => some (bs.map Char.ofNat)

/-- Python str.split on a dot: every occurrence splits, empty segments kept. -/
def splitOnDot : List Char → List (List Char)
  | [] => [[]]
  | c :: rest =>
    if c = '.' then [] :: splitOnDot rest
    else
      match splitOnDot rest with
      | [] => [[c]]
      | g :: gs => (c :: g) :: gs

/-- Model of jwt.decode(token, options=(verify_signature: False)).  Even with
signature verification disabled, PyJWT unconditionally runs its load step:
split the compact serialization into header, payload and signature segments
(fewer segments fail; extra dots end up inside the payload segment, whose
base64url decode then fails on the dot, as in PyJWT); base64url decode the
header and JSON parse it, requiring a mapping; base64url decode the payload;
base64url decode the signature (a well-formedness check only — the bytes are
never compared against anything, no key is involved); finally JSON parse the
payload, requiring an object.  Any failure is jwt.exceptions.DecodeError. -/
def jwtDecodeNoVerify (tok : String) : Option Json :=
  match splitOnDot tok.data with
  | [hd, p, sg] =>
    match base64urlDecode hd with
    | none => none
    | some hbs =>
      match jsonParseChars hbs with
      | some (Json.obj _) =>
        match base64urlDecode p with
        | none => none
        | some bs =>
          match base64urlDecode sg with
          | none => none
          | some _ =>
            match jsonParseChars bs with
            | some (Json.obj kvs) => some (Json.obj kvs)
            | _ => none
      | _ => none
  | _ => none

/-- An httpx.Response as consumed by auth.py: status code, body text, and the
response cookie jar. -/
structure Response where
  status_code : Nat
  text : String
  cookies : List (String × String)

/-- Predicate of the tenacity decorator on _post_json_with_cloud_client:
retry_if_exception_type((httpx.NetworkError, httpx.TimeoutException,
httpx.RemoteProtocolError)). -/
def retryable : HttpxErr → Bool
  | HttpxErr.networkError => true
  | HttpxErr.timeoutException => true
  | HttpxErr.remoteProtocolError => true
  | HttpxErr.otherTransportError => false

inductive RetryOutcome where
  | returned (r : Response) : RetryOutcome
  | raised (e : HttpxErr) : RetryOutcome
  | retrying : RetryOutcome

/-- The tenacity retry loop around one POST call site, run against the listed
outcomes of the successive attempts: a response returns immediately (whatever
its status), a retryable exception moves to the next attempt, any other
exception propagates.  The decorator has no stop condition, so exhausting the
listed attempts means the loop is still retrying. -/
def retryLoop : List (Except HttpxErr Response) → RetryOutcome
  | [] => RetryOutcome.retrying
  | Except.ok r :: _ => RetryOutcome.returned r
  | Except.error e :: rest =>
    if retryable e then retryLoop rest else RetryOutcome.raised e

/-- Sleep drawn by wait_random_exponential(multiplier=2, max=3) before retry
number n, with u the uniform sample in the unit interval. -/
def waitRandomExponentialM2C3 (n : Nat) (u : ℚ) : ℚ :=
  u * min ((2 : ℚ) * 2 ^ n) 3

/-- HTTP requests issued by a run, in order. -/
inductive HttpAction where
  | cloudLoginPost : HttpAction
  | cloudTokenPost : HttpAction
  | getCheckJwt (url : String) (authHeader : String) : HttpAction

/-- Outcomes of the two cloud POST call sites inside _obtain_token: the listed
results of the successive attempts of each. -/
structure CloudWorld where
  loginAttempts : List (Except HttpxErr Response)
  tokenAttempts : List (Except HttpxErr Response)

/-- Environment of one setup call: the cloud outcomes and the outcome of the
local GET /auth/check_jwt. -/
structure World where
  cloud : CloudWorld
  checkJwt : Except HttpxErr Response

/-- Outcome of running a method: a normal return, a raised Python exception,
or divergence inside the unbounded tenacity retry loop. -/
inductive PyResult (α : Type) where
  | ok (a : α) : PyResult α
  | exn (e : PyErr) : PyResult α
  | diverges : PyResult α

/-- Python truthiness test on an optional string: None and the empty string
are falsy. -/
def pyFalsyStr : Option String → Bool
  | none => true
  | some s => s == ""

/-- Instance state of EnvoyTokenAuth.  __init__ assigns the first five
attributes; _cookies, _is_consumer and _manager_token are only assigned later,
so none here means the attribute does not exist yet (reading it raises
AttributeError), while Json.null in _is_consumer or _manager_token is an
attribute assigned the Python value None. -/
structure EnvoyTokenAuth where
  host : String
  cloud_username : Option String
  cloud_password : Option String
  envoy_serial : Option String
  _token : Option String
  _cookies : Option (List (String × String)) := none
  _is_consumer : Option Json := none
  _manager_token : Option Json := none

/-- EnvoyTokenAuth.__init__. -/
def EnvoyTokenAuth.init (host : String)
    (cloud_username cloud_password envoy_serial token : Option String) :
    EnvoyTokenAuth :=
  { host := host
    cloud_username := cloud_username
    cloud_password := cloud_password
    envoy_serial := envoy_serial
    _token := token }

def EnvoyTokenAuth.JSON_LOGIN_URL : String :=
  "https://enlighten.enphaseenergy.com/login/login.json?"

def EnvoyTokenAuth.TOKEN_URL : String :=
  "https://entrez.enphaseenergy.com/tokens"

/-- EnvoyTokenAuth._obtain_token, lines 93 to 153 of auth.py: credential and
serial guards, login POST, status check, orjson parse, the three subscripts
(the first two assigned to _is_consumer and _manager_token as they happen, so
they survive a later failure), token POST, status check, and the body text of
the token response as the return value. -/
def EnvoyTokenAuth.obtain_token (st : EnvoyTokenAuth) (cw : CloudWorld) :
    PyResult String × EnvoyTokenAuth × List HttpAction :=
  if pyFalsyStr st.cloud_username || pyFalsyStr st.cloud_password then
    (PyResult.exn (PyErr.authError
      ("Your firmware requires token authentication, " ++
       " but no cloud credentials were provided to obtain the token.")), st, [])
  else if pyFalsyStr st.envoy_serial then
    (PyResult.exn (PyErr.authError
      ("Your firmware requires token authentication, " ++
       "but no envoy serial number was provided to obtain the token.")), st, [])
  else
    match retryLoop cw.loginAttempts with
    | RetryOutcome.retrying => (PyResult.diverges, st, [HttpAction.cloudLoginPost])
    | RetryOutcome.raised e =>
      (PyResult.exn (PyErr.httpxError e), st, [HttpAction.cloudLoginPost])
    | RetryOutcome.returned resp =>
      if resp.status_code ≠ 200 then
        (PyResult.exn (PyErr.authError
          ("Unable to login to Enlighten to obtain session ID from " ++
           EnvoyTokenAuth.JSON_LOGIN_URL ++ ": " ++
           toString resp.status_code ++ ": " ++ resp.text)), st, [HttpAction.cloudLoginPost])
      else
        match jsonParse resp.text with
        | none =>
          (PyResult.exn (PyErr.authError
            ("Unable to decode response from Enlighten: " ++
             toString resp.status_code ++ ": " ++ resp.text)), st, [HttpAction.cloudLoginPost])
        | some j =>
          match j.subscript "is_consumer" with
          | Except.error e => (PyResult.exn e, st, [HttpAction.cloudLoginPost])
          | Except.ok vic =>
            match j.subscript "manager_token" with
            | Except.error e =>
              (PyResult.exn e, { st with _is_consumer := some vic }, [HttpAction.cloudLoginPost])
            | Except.ok vmt =>
              match j.subscript "session_id" with
              | Except.error e =>
                (PyResult.exn e,
                 { st with _is_consumer := some vic, _manager_token := some vmt },
                 [HttpAction.cloudLoginPost])
              | Except.ok _vsid =>
                match retryLoop cw.tokenAttempts with
                | RetryOutcome.retrying =>
                  (PyResult.diverges,
                   { st with _is_consumer := some vic, _manager_token := some vmt },
                   [HttpAction.cloudLoginPost, HttpAction.cloudTokenPost])
                | RetryOutcome.raised e =>
                  (PyResult.exn (PyErr.httpxError e),
                   { st with _is_consumer := some vic, _manager_token := some vmt },
                   [HttpAction.cloudLoginPost, HttpAction.cloudTokenPost])
                | RetryOutcome.returned resp2 =>
                  if resp2.status_code ≠ 200 then
                    (PyResult.exn (PyErr.authError
                      ("Unable to obtain token for Envoy authentication from " ++
                       EnvoyTokenAuth.TOKEN_URL ++ ": " ++
                       toString resp2.status_code ++ ": " ++ resp2.text)),
                     { st with _is_consumer := some vic, _manager_token := some vmt },
                     [HttpAction.cloudLoginPost, HttpAction.cloudTokenPost])
                  else
                    (PyResult.ok resp2.text,
                     { st with _is_consumer := some vic, _manager_token := some vmt },
                     [HttpAction.cloudLoginPost, HttpAction.cloudTokenPost])

/-- Lines 71 to 78 of setup: obtain a token when none is cached or the cached
one is falsy, store it, and fail when the result is still falsy.  On success
the value is the non-empty token string that the verification step will put in
the Authorization header via the token property. -/
def EnvoyTokenAuth.setupTokenPhase (st : EnvoyTokenAuth) (cw : CloudWorld) :
    PyResult String × EnvoyTokenAuth × List HttpAction :=
  match (if pyFalsyStr st._token then
           match st.obtain_token cw with
           | (PyResult.ok t, st2, tr) => (PyResult.ok (), { st2 with _token := some t }, tr)
           | (PyResult.exn e, st2, tr) => (PyResult.exn e, st2, tr)
           | (PyResult.diverges, st2, tr) => (PyResult.diverges, st2, tr)
         else (PyResult.ok (), st, [])) with
  | (PyResult.ok _, st1, tr) =>
    if pyFalsyStr st1._token then
      (PyResult.exn (PyErr.authError "Unable to obtain token for Envoy authentication."),
       st1, tr)
    else
      match st1._token with
      | some t => (PyResult.ok t, st1, tr)
      | none => (PyResult.exn PyErr.assertionError, st1, tr)
  | (PyResult.exn e, st1, tr) => (PyResult.exn e, st1, tr)
  | (PyResult.diverges, st1, tr) => (PyResult.diverges, st1, tr)

/-- EnvoyTokenAuth.setup, lines 69 to 91 of auth.py: the token phase above,
then GET https://host/auth/check_jwt with the bearer header, failure on any
status other than 200, and only then the assignment of _cookies from the
response. -/
def EnvoyTokenAuth.setup (st : EnvoyTokenAuth) (w : World) :
    PyResult Unit × EnvoyTokenAuth × List HttpAction :=
  match st.setupTokenPhase w.cloud with
  | (PyResult.ok t, st1, tr) =>
    match w.checkJwt with
    | Except.error e =>
      (PyResult.exn (PyErr.httpxError e), st1,
       tr ++ [HttpAction.getCheckJwt ("https://" ++ st1.host ++ "/auth/check_jwt")
                ("Bearer " ++ t)])
    | Except.ok req =>
      if req.status_code ≠ 200 then
        (PyResult.exn (PyErr.authError "Unable to verify token for Envoy authentication."),
         st1,
         tr ++ [HttpAction.getCheckJwt ("https://" ++ st1.host ++ "/auth/check_jwt")
                  ("Bearer " ++ t)])
      else
        (PyResult.ok (), { st1 with _cookies := some req.cookies },
         tr ++ [HttpAction.getCheckJwt ("https://" ++ st1.host ++ "/auth/check_jwt")
                  ("Bearer " ++ t)])
  | (PyResult.exn e, st1, tr) => (PyResult.exn e, st1, tr)
  | (PyResult.diverges, st1, tr) => (PyResult.diverges, st1, tr)

/-- EnvoyTokenAuth.refresh: re-run _obtain_token and overwrite the cached
token; no local verification. -/
def EnvoyTokenAuth.refresh (st : EnvoyTokenAuth) (cw : CloudWorld) :
    PyResult Unit × EnvoyTokenAuth × List HttpAction :=
  match st.obtain_token cw with
  | (PyResult.ok t, st2, tr) => (PyResult.ok (), { st2 with _token := some t }, tr)
  | (PyResult.exn e, st2, tr) => (PyResult.exn e, st2, tr)
  | (PyResult.diverges, st2, tr) => (PyResult.diverges, st2, tr)

/-- The token property: assert self._token is not None, then return it.  The
assert tests identity with None only, so an empty string passes. -/
def EnvoyTokenAuth.token (st : EnvoyTokenAuth) : Except PyErr String :=
  match st._token with
  | none => Except.error PyErr.assertionError
  | some t => Except.ok t

/-- The manager_token property: reading the attribute raises AttributeError
when it was never assigned; the assert rejects an assigned Python None. -/
def EnvoyTokenAuth.manager_token (st : EnvoyTokenAuth) : Except PyErr Json :=
  match st._manager_token with
  | none => Except.error (PyErr.attributeError "_manager_token")
  | some Json.null => Except.error PyErr.assertionError
  | some v => Except.ok v

/-- The cookies property: plain read of self._cookies. -/
def EnvoyTokenAuth.cookies (st : EnvoyTokenAuth) :
    Except PyErr (List (String × String)) :=
  match st._cookies with
  | none => Except.error (PyErr.attributeError "_cookies")
  | some cs => Except.ok cs

/-- The is_consumer property: plain read of self._is_consumer. -/
def EnvoyTokenAuth.is_consumer (st : EnvoyTokenAuth) : Except PyErr Json :=
  match st._is_consumer with
  | none => Except.error (PyErr.attributeError "_is_consumer")
  | some v => Except.ok v

/-- The headers property: a bearer Authorization header from the token
property. -/
def EnvoyTokenAuth.headers (st : EnvoyTokenAuth) :
    Except PyErr (List (String × String)) :=
  match st.token with
  | Except.error e => Except.error e
  | Except.ok t => Except.ok [("Authorization", "Bearer " ++ t)]

/-- The expire_timestamp property: jwt.decode of the token property with
signature verification disabled, then subscript with the exp key.  The
typing.cast around the result is a no-op at runtime, so the raw JSON value is
returned. -/
def EnvoyTokenAuth.expire_timestamp (st : EnvoyTokenAuth) : Except PyErr Json :=
  match st.token with
  | Except.error e => Except.error e
  | Except.ok tok =>
    match jwtDecodeNoVerify tok with
    | none => Except.error PyErr.jwtDecodeError
    | some j => j.subscript "exp"

/-- EnvoyTokenAuth.get_endpoint_url. -/
def EnvoyTokenAuth.get_endpoint_url (st : EnvoyTokenAuth) (endpoint : String) : String :=
  "https://" ++ st.host ++ endpoint

/-- Login response body of the concrete runs below: the three fields the code
reads, in a JSON object. -/
def cexLoginBody : String :=
  "\x7b\"is_consumer\": true, \"manager_token\": \"mt\", \"session_id\": \"sid\"\x7d"

/-- A freshly constructed authenticator with cloud credentials and a serial
number but no pre-supplied token. -/
def cexAuth : EnvoyTokenAuth :=
  EnvoyTokenAuth.init "envoy.local" (some "user@example.com") (some "pw")
    (some "122233") none

/-- A run in which the whole cloud round-trip succeeds (token body tok) and
the local verification then answers 401. -/
def cexWorld : World :=
  { cloud :=
      { loginAttempts := [Except.ok { status_code := 200, text := cexLoginBody, cookies := [] }]
        tokenAttempts := [Except.ok { status_code := 200, text := "tok", cookies := [] }] }
    checkJwt := Except.ok { status_code := 401, text := "", cookies := [] } }

theorem obtain_token_preserves_cookies (st : EnvoyTokenAuth) (cw : CloudWorld) :
    ((st.obtain_token cw).2.1)._cookies = st._cookies := by
  unfold EnvoyTokenAuth.obtain_token
  repeat' split
  all_goals rfl

theorem setupTokenPhase_preserves_cookies (st : EnvoyTokenAuth) (cw : CloudWorld) :
    ((st.setupTokenPhase cw).2.1)._cookies = st._cookies := by
  have h := obtain_token_preserves_cookies st cw
  unfold EnvoyTokenAuth.setupTokenPhase
  by_cases hf : pyFalsyStr st._token
  · rw [if_pos hf]
    rcases hob : st.obtain_token cw with ⟨r, st2, tr⟩
    rw [hob] at h
    simp only at h
    cases r
    all_goals simp only
    · split
      · exact h
      · exact h
    · exact h
    · exact h
  · rw [if_neg hf]
    simp only
    split
    · rfl
    · split
      · rfl
      · rfl

theorem setupTokenPhase_presupplied (st : EnvoyTokenAuth) (cw : CloudWorld) (t : String)
    (h : st._token = some t) (hne : t ≠ "") :
    st.setupTokenPhase cw = (PyResult.ok t, st, []) := by
  have hf : pyFalsyStr st._token = false := by
    rw [h]
    simp [pyFalsyStr, hne]
  unfold EnvoyTokenAuth.setupTokenPhase
  rw [hf]
  simp only [Bool.false_eq_true, if_false]
  rw [hf]
  simp only [Bool.false_eq_true, if_false]
  rw [h]

/-- C1 (amended): if setup raises, the _cookies attribute is untouched (it is
only assigned after the 200 check of the verification response); the other
mutable attributes are NOT protected, see the counterexample. -/
theorem setup_failure_preserves_cookies (st : EnvoyTokenAuth) (w : World) (e : PyErr)
    (h : (st.setup w).1 = PyResult.exn e) :
    ((st.setup w).2.1)._cookies = st._cookies := by
  have hc := setupTokenPhase_preserves_cookies st w.cloud
  rcases htp : st.setupTokenPhase w.cloud with ⟨r, st1, tr⟩
  rw [htp] at hc
  simp only at hc
  unfold EnvoyTokenAuth.setup at h ⊢
  rw [htp] at h ⊢
  cases r with
  | ok t =>
    cases hjwt : w.checkJwt with
    | error e2 => exact hc
    | ok req =>
      by_cases hs : req.status_code = 200
      · simp [hjwt, hs] at h
      · simp only [ne_eq, hs, not_false_eq_true, if_true]
        exact hc
  | exn e2 => exact hc
  | diverges => simp at h

/-- C1 (witness): the concrete failing-verification run raises an
authentication error and leaves _cookies unassigned, as in the fresh
instance. -/
theorem setup_failure_preserves_cookies_witness :
    (cexAuth.setup cexWorld).1 =
      PyResult.exn (PyErr.authError "Unable to verify token for Envoy authentication.")
    ∧ ((cexAuth.setup cexWorld).2.1)._cookies = cexAuth._cookies :=
  ⟨rfl, setup_failure_preserves_cookies cexAuth cexWorld
    (PyErr.authError "Unable to verify token for Envoy authentication.") rfl⟩

/-- C1 (counterexample): a setup that fails at local verification (status 401
after a fully successful cloud round-trip) raises the authentication error but
leaves the newly obtained token, manager_token and is_consumer assigned on the
instance: partial state survives a failed setup, contradicting the claim that
the observable state is unchanged. -/
theorem setup_failure_leaves_obtained_token_cex :
    (cexAuth.setup cexWorld).1 =
      PyResult.exn (PyErr.authError "Unable to verify token for Envoy authentication.")
    ∧ cexAuth._token = none
    ∧ ((cexAuth.setup cexWorld).2.1)._token = some "tok"
    ∧ ((cexAuth.setup cexWorld).2.1)._manager_token = some (Json.str "mt")
    ∧ ((cexAuth.setup cexWorld).2.1)._is_consumer = some (Json.bool true) :=
  ⟨rfl, rfl, rfl, rfl, rfl⟩

/-- C2 (amended): whenever a token string is cached — including the empty
string — headers is the bearer mapping built from it; the assertion inside the
token property fires exactly when the token attribute is Python None. -/
theorem headers_bearer_and_assert_on_none :
    (∀ (st : EnvoyTokenAuth) (t : String), st._token = some t →
       st.headers = Except.ok [("Authorization", "Bearer " ++ t)])
    ∧ (∀ st : EnvoyTokenAuth, st._token = none →
       st.headers = Except.error PyErr.assertionError) := by
  constructor
  · intro st t h
    unfold EnvoyTokenAuth.headers EnvoyTokenAuth.token
    rw [h]
  · intro st h
    unfold EnvoyTokenAuth.headers EnvoyTokenAuth.token
    rw [h]

/-- C2 (witness): on an instance constructed with token abc, headers is the
bearer mapping. -/
theorem headers_bearer_and_assert_on_none_witness :
    (EnvoyTokenAuth.init "envoy.local" none none none (some "abc"))._token = some "abc"
    ∧ (EnvoyTokenAuth.init "envoy.local" none none none (some "abc")).headers =
        Except.ok [("Authorization", "Bearer " ++ "abc")] :=
  ⟨rfl, headers_bearer_and_assert_on_none.1
    (EnvoyTokenAuth.init "envoy.local" none none none (some "abc")) "abc" rfl⟩

/-- C2 (counterexample): with the empty string cached as token, reading
headers does NOT fail with an assertion — the assert tests only identity with
None — and quietly returns a Bearer header with an empty credential. -/
theorem headers_empty_string_token_cex :
    (EnvoyTokenAuth.init "envoy.local" none none none (some ""))._token = some ""
    ∧ (EnvoyTokenAuth.init "envoy.local" none none none (some "")).headers =
        Except.ok [("Authorization", "Bearer ")] :=
  ⟨rfl, rfl⟩

/-- C9 (amended): on a freshly constructed instance the backing attributes
_cookies, _manager_token and _is_consumer were never assigned, so the three
properties raise AttributeError — not AuthenticationError and not an
assertion failure.  After a FAILED setup this no longer holds for
manager_token and is_consumer, see the counterexample. -/
theorem unassigned_attributes_raise_attribute_error (host : String)
    (cu cp es tok : Option String) :
    (EnvoyTokenAuth.init host cu cp es tok).cookies =
      Except.error (PyErr.attributeError "_cookies")
    ∧ (EnvoyTokenAuth.init host cu cp es tok).manager_token =
      Except.error (PyErr.attributeError "_manager_token")
    ∧ (EnvoyTokenAuth.init host cu cp es tok).is_consumer =
      Except.error (PyErr.attributeError "_is_consumer") :=
  ⟨rfl, rfl, rfl⟩

/-- C9 (counterexample): after a setup call that failed (local verification
answered 401, so setup never completed successfully), manager_token and
is_consumer are readable and return the cloud login values instead of raising
AttributeError. -/
theorem failed_setup_manager_token_readable_cex :
    (cexAuth.setup cexWorld).1 =
      PyResult.exn (PyErr.authError "Unable to verify token for Envoy authentication.")
    ∧ ((cexAuth.setup cexWorld).2.1).manager_token = Except.ok (Json.str "mt")
    ∧ ((cexAuth.setup cexWorld).2.1).is_consumer = Except.ok (Json.bool true) :=
  ⟨rfl, rfl, rfl⟩

/-- C3 (confirmed): constructed with a pre-supplied (non-empty) token, setup
issues only the local GET /auth/check_jwt with the bearer header — no cloud
POST appears in the trace — and its outcome and trace are independent of
cloud_username, cloud_password and envoy_serial, which are never read. -/
theorem setup_presupplied_token_skips_cloud (st : EnvoyTokenAuth) (w : World) (t : String)
    (h : st._token = some t) (hne : t ≠ "") :
    (st.setup w).2.2 =
      [HttpAction.getCheckJwt ("https://" ++ st.host ++ "/auth/check_jwt") ("Bearer " ++ t)]
    ∧ ∀ cu cp es : Option String,
        (EnvoyTokenAuth.setup
            { st with cloud_username := cu, cloud_password := cp, envoy_serial := es } w).1
          = (st.setup w).1
        ∧ (EnvoyTokenAuth.setup
            { st with cloud_username := cu, cloud_password := cp, envoy_serial := es } w).2.2
          = (st.setup w).2.2 := by
  have h1 := setupTokenPhase_presupplied st w.cloud t h hne
  constructor
  · unfold EnvoyTokenAuth.setup
    rw [h1]
    cases hjwt : w.checkJwt with
    | error e2 => simp
    | ok req =>
      by_cases hs : req.status_code = 200
      · simp [hs]
      · simp [hs]
  · intro cu cp es
    have h2 := setupTokenPhase_presupplied
      { st with cloud_username := cu, cloud_password := cp, envoy_serial := es } w.cloud t h hne
    unfold EnvoyTokenAuth.setup
    rw [h1, h2]
    cases hjwt : w.checkJwt with
    | error e2 => exact ⟨rfl, rfl⟩
    | ok req =>
      by_cases hs : req.status_code = 200
      · simp [hs]
      · simp [hs]

/-- C3 (witness): a concrete instance with pre-supplied token tkn issues
exactly the one local verification request. -/
theorem setup_presupplied_token_skips_cloud_witness :
    (EnvoyTokenAuth.init "envoy.local" none none none (some "tkn"))._token = some "tkn"
    ∧ "tkn" ≠ ""
    ∧ ((EnvoyTokenAuth.init "envoy.local" none none none (some "tkn")).setup
        { cloud := { loginAttempts := [], tokenAttempts := [] }
          checkJwt := Except.ok { status_code := 200, text := "", cookies := [("sessionid", "x")] } }).2.2 =
      [HttpAction.getCheckJwt ("https://" ++ "envoy.local" ++ "/auth/check_jwt")
        ("Bearer " ++ "tkn")] :=
  ⟨rfl, by decide,
    (setup_presupplied_token_skips_cloud
      (EnvoyTokenAuth.init "envoy.local" none none none (some "tkn"))
      { cloud := { loginAttempts := [], tokenAttempts := [] }
        checkJwt := Except.ok { status_code := 200, text := "", cookies := [("sessionid", "x")] } }
      "tkn" rfl (by decide)).1⟩

/-- C4 (confirmed): when the token phase succeeded and the local verification
GET answers any status other than 200, setup raises the AuthenticationError
with the unable-to-verify message and the _cookies attribute keeps its
pre-setup value (it is never assigned on this path). -/
theorem setup_verify_non200_auth_error (st : EnvoyTokenAuth) (w : World)
    (t : String) (st1 : EnvoyTokenAuth) (tr : List HttpAction) (req : Response)
    (htp : st.setupTokenPhase w.cloud = (PyResult.ok t, st1, tr))
    (hjwt : w.checkJwt = Except.ok req)
    (hs : req.status_code ≠ 200) :
    (st.setup w).1 =
      PyResult.exn (PyErr.authError "Unable to verify token for Envoy authentication.")
    ∧ ((st.setup w).2.1)._cookies = st._cookies := by
  have hc := setupTokenPhase_preserves_cookies st w.cloud
  rw [htp] at hc
  simp only at hc
  unfold EnvoyTokenAuth.setup
  rw [htp, hjwt]
  constructor
  · simp [hs]
  · simp only [ne_eq, hs, not_false_eq_true, if_true]
    exact hc

/-- C4 (witness): with a pre-supplied token and a 403 from the verification
endpoint, setup fails with the unable-to-verify error and cookies stay
unassigned. -/
theorem setup_verify_non200_auth_error_witness :
    (EnvoyTokenAuth.init "envoy.local" none none none (some "tkn")).setupTokenPhase
        { loginAttempts := [], tokenAttempts := [] } =
      (PyResult.ok "tkn", EnvoyTokenAuth.init "envoy.local" none none none (some "tkn"), [])
    ∧ (403 : Nat) ≠ 200
    ∧ ((EnvoyTokenAuth.init "envoy.local" none none none (some "tkn")).setup
        { cloud := { loginAttempts := [], tokenAttempts := [] }
          checkJwt := Except.ok { status_code := 403, text := "", cookies := [("a", "b")] } }).1 =
        PyResult.exn (PyErr.authError "Unable to verify token for Envoy authentication.")
    ∧ (((EnvoyTokenAuth.init "envoy.local" none none none (some "tkn")).setup
        { cloud := { loginAttempts := [], tokenAttempts := [] }
          checkJwt := Except.ok { status_code := 403, text := "", cookies := [("a", "b")] } }).2.1)._cookies =
        (EnvoyTokenAuth.init "envoy.local" none none none (some "tkn"))._cookies := by
  refine ⟨rfl, by decide, ?_, ?_⟩
  · exact (setup_verify_non200_auth_error
      (EnvoyTokenAuth.init "envoy.local" none none none (some "tkn"))
      { cloud := { loginAttempts := [], tokenAttempts := [] }
        checkJwt := Except.ok { status_code := 403, text := "", cookies := [("a", "b")] } }
      "tkn" (EnvoyTokenAuth.init "envoy.local" none none none (some "tkn")) []
      { status_code := 403, text := "", cookies := [("a", "b")] }
      rfl rfl (by decide)).1
  · exact (setup_verify_non200_auth_error
      (EnvoyTokenAuth.init "envoy.local" none none none (some "tkn"))
      { cloud := { loginAttempts := [], tokenAttempts := [] }
        checkJwt := Except.ok { status_code := 403, text := "", cookies := [("a", "b")] } }
      "tkn" (EnvoyTokenAuth.init "envoy.local" none none none (some "tkn")) []
      { status_code := 403, text := "", cookies := [("a", "b")] }
      rfl rfl (by decide)).2

/-- C5 (confirmed): with cloud credentials and serial present, both cloud
POSTs answering 200, and a login body that parses to JSON carrying the three
expected fields, obtain_token returns exactly the text body of the token
endpoint response, unmodified. -/
theorem obtain_token_returns_exact_body (st : EnvoyTokenAuth) (cw : CloudWorld)
    (r1 : Response) (j vic vmt vsid : Json) (r2 : Response)
    (hcu : pyFalsyStr st.cloud_username = false)
    (hcp : pyFalsyStr st.cloud_password = false)
    (hes : pyFalsyStr st.envoy_serial = false)
    (hlg : retryLoop cw.loginAttempts = RetryOutcome.returned r1)
    (hs1 : r1.status_code = 200)
    (hj : jsonParse r1.text = some j)
    (hic : j.subscript "is_consumer" = Except.ok vic)
    (hmt : j.subscript "manager_token" = Except.ok vmt)
    (hsid : j.subscript "session_id" = Except.ok vsid)
    (htk : retryLoop cw.tokenAttempts = RetryOutcome.returned r2)
    (hs2 : r2.status_code = 200) :
    (st.obtain_token cw).1 = PyResult.ok r2.text := by
  unfold EnvoyTokenAuth.obtain_token
  simp [hcu, hcp, hes, hlg, hs1, hj, hic, hmt, hsid, htk, hs2]

/-- C5 (witness): the concrete successful cloud round-trip returns the token
endpoint body tok verbatim. -/
theorem obtain_token_returns_exact_body_witness :
    retryLoop cexWorld.cloud.loginAttempts =
      RetryOutcome.returned { status_code := 200, text := cexLoginBody, cookies := [] }
    ∧ jsonParse cexLoginBody =
      some (Json.obj [("is_consumer", Json.bool true), ("manager_token", Json.str "mt"),
        ("session_id", Json.str "sid")])
    ∧ retryLoop cexWorld.cloud.tokenAttempts =
      RetryOutcome.returned { status_code := 200, text := "tok", cookies := [] }
    ∧ (cexAuth.obtain_token cexWorld.cloud).1 = PyResult.ok "tok" :=
  ⟨rfl, rfl, rfl,
    obtain_token_returns_exact_body cexAuth cexWorld.cloud
      { status_code := 200, text := cexLoginBody, cookies := [] }
      (Json.obj [("is_consumer", Json.bool true), ("manager_token", Json.str "mt"),
        ("session_id", Json.str "sid")])
      (Json.bool true) (Json.str "mt") (Json.str "sid")
      { status_code := 200, text := "tok", cookies := [] }
      rfl rfl rfl rfl rfl rfl rfl rfl rfl rfl rfl⟩

/-- C6 (confirmed): a login response with status 200 whose body does not parse
as JSON makes obtain_token raise the AuthenticationError whose message is the
decode-failure text followed by the raw status code and the raw body. -/
theorem obtain_token_undecodable_json_auth_error (st : EnvoyTokenAuth) (cw : CloudWorld)
    (r1 : Response)
    (hcu : pyFalsyStr st.cloud_username = false)
    (hcp : pyFalsyStr st.cloud_password = false)
    (hes : pyFalsyStr st.envoy_serial = false)
    (hlg : retryLoop cw.loginAttempts = RetryOutcome.returned r1)
    (hs1 : r1.status_code = 200)
    (hj : jsonParse r1.text = none) :
    (st.obtain_token cw).1 = PyResult.exn (PyErr.authError
      ("Unable to decode response from Enlighten: " ++
       toString r1.status_code ++ ": " ++ r1.text)) := by
  unfold EnvoyTokenAuth.obtain_token
  simp [hcu, hcp, hes, hlg, hs1, hj]

/-- C6 (witness): a 200 login response with body not json raises the
authentication error carrying status 200 and that body. -/
theorem obtain_token_undecodable_json_auth_error_witness :
    jsonParse "not json" = none
    ∧ (cexAuth.obtain_token
        { loginAttempts := [Except.ok { status_code := 200, text := "not json", cookies := [] }]
          tokenAttempts := [] }).1 =
      PyResult.exn (PyErr.authError
        ("Unable to decode response from Enlighten: " ++ toString (200 : Nat) ++ ": " ++ "not json")) :=
  ⟨rfl,
    obtain_token_undecodable_json_auth_error cexAuth
      { loginAttempts := [Except.ok { status_code := 200, text := "not json", cookies := [] }]
        tokenAttempts := [] }
      { status_code := 200, text := "not json", cookies := [] }
      rfl rfl rfl rfl rfl rfl⟩

/-- C10 (confirmed): a 200 login response whose body is a JSON object missing
is_consumer, manager_token or session_id makes obtain_token raise KeyError —
not AuthenticationError. -/
theorem obtain_token_missing_key_raises_keyerror (st : EnvoyTokenAuth) (cw : CloudWorld)
    (r1 : Response) (kvs : List (String × Json))
    (hcu : pyFalsyStr st.cloud_username = false)
    (hcp : pyFalsyStr st.cloud_password = false)
    (hes : pyFalsyStr st.envoy_serial = false)
    (hlg : retryLoop cw.loginAttempts = RetryOutcome.returned r1)
    (hs1 : r1.status_code = 200)
    (hj : jsonParse r1.text = some (Json.obj kvs))
    (hmiss : kvs.lookup "is_consumer" = none ∨ kvs.lookup "manager_token" = none ∨
             kvs.lookup "session_id" = none) :
    ∃ k, (st.obtain_token cw).1 = PyResult.exn (PyErr.keyError k) := by
  unfold EnvoyTokenAuth.obtain_token
  cases hic : kvs.lookup "is_consumer" with
  | none =>
    exact ⟨"is_consumer", by simp [hcu, hcp, hes, hlg, hs1, hj, Json.subscript, hic]⟩
  | some vic =>
    cases hmt : kvs.lookup "manager_token" with
    | none =>
      exact ⟨"manager_token", by simp [hcu, hcp, hes, hlg, hs1, hj, Json.subscript, hic, hmt]⟩
    | some vmt =>
      cases hsid : kvs.lookup "session_id" with
      | none =>
        exact ⟨"session_id",
          by simp [hcu, hcp, hes, hlg, hs1, hj, Json.subscript, hic, hmt, hsid]⟩
      | some vsid =>
        rcases hmiss with h | h | h
        · rw [hic] at h
          exact absurd h (by simp)
        · rw [hmt] at h
          exact absurd h (by simp)
        · rw [hsid] at h
          exact absurd h (by simp)

/-- C10 (witness): a 200 login body holding only session_id raises KeyError.  -/
theorem obtain_token_missing_key_raises_keyerror_witness :
    jsonParse "\x7b\"session_id\": \"sid\"\x7d" =
      some (Json.obj [("session_id", Json.str "sid")])
    ∧ ([("session_id", Json.str "sid")] : List (String × Json)).lookup "is_consumer" = none
    ∧ ∃ k, (cexAuth.obtain_token
        { loginAttempts :=
            [Except.ok { status_code := 200, text := "\x7b\"session_id\": \"sid\"\x7d", cookies := [] }]
          tokenAttempts := [] }).1 = PyResult.exn (PyErr.keyError k) :=
  ⟨rfl, rfl,
    obtain_token_missing_key_raises_keyerror cexAuth
      { loginAttempts :=
          [Except.ok { status_code := 200, text := "\x7b\"session_id\": \"sid\"\x7d", cookies := [] }]
        tokenAttempts := [] }
      { status_code := 200, text := "\x7b\"session_id\": \"sid\"\x7d", cookies := [] }
      [("session_id", Json.str "sid")]
      rfl rfl rfl rfl rfl rfl (Or.inl rfl)⟩

/-- C7 (confirmed): the retry policy of the cloud POST helper retries exactly
on network errors, timeouts and remote-protocol errors; any returned response
— whatever its status — comes back to the caller without retry; a run of
retryable failures of any length leaves the loop still retrying (no stop
condition); the randomized exponential wait with multiplier 2 is capped at 3
seconds; and a non-200 login response is terminal: the caller raises the
AuthenticationError with status and body. -/
theorem retry_policy_matches_spec :
    (retryable HttpxErr.networkError = true ∧ retryable HttpxErr.timeoutException = true ∧
     retryable HttpxErr.remoteProtocolError = true ∧ retryable HttpxErr.otherTransportError = false)
    ∧ (∀ (r : Response) (rest : List (Except HttpxErr Response)),
        retryLoop (Except.ok r :: rest) = RetryOutcome.returned r)
    ∧ (∀ (e : HttpxErr) (rest : List (Except HttpxErr Response)),
        retryable e = true → retryLoop (Except.error e :: rest) = retryLoop rest)
    ∧ (∀ (n : Nat) (e : HttpxErr), retryable e = true →
        retryLoop (List.replicate n (Except.error e)) = RetryOutcome.retrying)
    ∧ (∀ (n : Nat) (u : ℚ), 0 ≤ u → u ≤ 1 →
        0 ≤ waitRandomExponentialM2C3 n u ∧ waitRandomExponentialM2C3 n u ≤ 3)
    ∧ (∀ (st : EnvoyTokenAuth) (cw : CloudWorld) (r1 : Response),
        pyFalsyStr st.cloud_username = false → pyFalsyStr st.cloud_password = false →
        pyFalsyStr st.envoy_serial = false →
        retryLoop cw.loginAttempts = RetryOutcome.returned r1 → r1.status_code ≠ 200 →
        (st.obtain_token cw).1 = PyResult.exn (PyErr.authError
          ("Unable to login to Enlighten to obtain session ID from " ++
           EnvoyTokenAuth.JSON_LOGIN_URL ++ ": " ++
           toString r1.status_code ++ ": " ++ r1.text))) := by
  refine ⟨⟨rfl, rfl, rfl, rfl⟩, ?_, ?_, ?_, ?_, ?_⟩
  · intro r rest
    rfl
  · intro e rest he
    simp [retryLoop, he]
  · intro n e he
    induction n with
    | zero => rfl
    | succ k ih => simp [List.replicate, retryLoop, he, ih]
  · intro n u hu0 hu1
    simp only [waitRandomExponentialM2C3]
    have hm0 : (0 : ℚ) ≤ min ((2 : ℚ) * 2 ^ n) 3 := le_min (by positivity) (by norm_num)
    constructor
    · exact mul_nonneg hu0 hm0
    · calc u * min ((2 : ℚ) * 2 ^ n) 3 ≤ 1 * min ((2 : ℚ) * 2 ^ n) 3 :=
          mul_le_mul_of_nonneg_right hu1 hm0
        _ = min ((2 : ℚ) * 2 ^ n) 3 := one_mul _
        _ ≤ 3 := min_le_right _ _
  · intro st cw r1 hcu hcp hes hlg hs
    unfold EnvoyTokenAuth.obtain_token
    simp [hcu, hcp, hes, hlg, hs]

/-- C7 (witness): concrete instances of the retry policy facts. -/
theorem retry_policy_matches_spec_witness :
    retryable HttpxErr.networkError = true
    ∧ retryLoop (List.replicate 3 (Except.error HttpxErr.networkError)) = RetryOutcome.retrying
    ∧ (0 : ℚ) ≤ waitRandomExponentialM2C3 4 1
    ∧ waitRandomExponentialM2C3 4 1 ≤ 3
    ∧ retryLoop [Except.ok ({ status_code := 503, text := "", cookies := [] } : Response)] =
        RetryOutcome.returned { status_code := 503, text := "", cookies := [] } :=
  ⟨retry_policy_matches_spec.1.1,
   retry_policy_matches_spec.2.2.2.1 3 HttpxErr.networkError rfl,
   (retry_policy_matches_spec.2.2.2.2.1 4 1 (by norm_num) (by norm_num)).1,
   (retry_policy_matches_spec.2.2.2.2.1 4 1 (by norm_num) (by norm_num)).2,
   retry_policy_matches_spec.2.1 { status_code := 503, text := "", cookies := [] } []⟩

/-- C8 (amended): for a cached well-formed JWT — three dot-separated
segments, header base64url-decoding to a JSON mapping, payload
base64url-decoding to a JSON object with a numeric exp claim, signature a
valid base64url string — expire_timestamp returns that exp value.  The
signature BYTES are universally quantified and never compared against
anything (no key appears), so no cryptographic signature validation happens;
and with no cached token the property fails with the assertion of the token
property.  The decode of header and signature is NOT skippable, see the
counterexample. -/
theorem expire_timestamp_extracts_exp :
    (∀ (st : EnvoyTokenAuth) (tok : String) (hd p sg hbs bs sbs : List Char)
        (hkvs kvs : List (String × Json)) (n : Int),
       st._token = some tok →
       splitOnDot tok.data = [hd, p, sg] →
       base64urlDecode hd = some hbs →
       jsonParseChars hbs = some (Json.obj hkvs) →
       base64urlDecode p = some bs →
       base64urlDecode sg = some sbs →
       jsonParseChars bs = some (Json.obj kvs) →
       Json.subscript (Json.obj kvs) "exp" = Except.ok (Json.num n) →
       st.expire_timestamp = Except.ok (Json.num n))
    ∧ (∀ st : EnvoyTokenAuth, st._token = none →
       st.expire_timestamp = Except.error PyErr.assertionError) := by
  constructor
  · intro st tok hd p sg hbs bs sbs hkvs kvs n htok hsplit hhdr hhj hb64 hsig hjson hexp
    simp only [EnvoyTokenAuth.expire_timestamp, EnvoyTokenAuth.token, htok]
    simp only [jwtDecodeNoVerify, hsplit, hhdr, hhj, hb64, hsig, hjson]
    exact hexp
  · intro st h
    simp only [EnvoyTokenAuth.expire_timestamp, EnvoyTokenAuth.token, h]

/-- C8 (witness): a real JWT — header eyJhbGciOiJIUzI1NiIsInR5cCI6IkpXVCJ9
(the object with alg HS256 and typ JWT), payload eyJleHAiOiAxNzAwMDAwMDAwfQ,
signature segment c2ln — yields exactly the exp timestamp 1700000000. -/
theorem expire_timestamp_extracts_exp_witness :
    (EnvoyTokenAuth.init "envoy.local" none none none
        (some "eyJhbGciOiJIUzI1NiIsInR5cCI6IkpXVCJ9.eyJleHAiOiAxNzAwMDAwMDAwfQ.c2ln"))._token =
      some "eyJhbGciOiJIUzI1NiIsInR5cCI6IkpXVCJ9.eyJleHAiOiAxNzAwMDAwMDAwfQ.c2ln"
    ∧ base64urlDecode "eyJhbGciOiJIUzI1NiIsInR5cCI6IkpXVCJ9".data =
      some "\x7b\"alg\":\"HS256\",\"typ\":\"JWT\"\x7d".data
    ∧ base64urlDecode "eyJleHAiOiAxNzAwMDAwMDAwfQ".data =
      some "\x7b\"exp\": 1700000000\x7d".data
    ∧ jsonParseChars "\x7b\"exp\": 1700000000\x7d".data =
      some (Json.obj [("exp", Json.num 1700000000)])
    ∧ (EnvoyTokenAuth.init "envoy.local" none none none
        (some "eyJhbGciOiJIUzI1NiIsInR5cCI6IkpXVCJ9.eyJleHAiOiAxNzAwMDAwMDAwfQ.c2ln")).expire_timestamp =
      Except.ok (Json.num 1700000000) :=
  ⟨rfl, rfl, rfl, rfl,
    expire_timestamp_extracts_exp.1
      (EnvoyTokenAuth.init "envoy.local" none none none
        (some "eyJhbGciOiJIUzI1NiIsInR5cCI6IkpXVCJ9.eyJleHAiOiAxNzAwMDAwMDAwfQ.c2ln"))
      "eyJhbGciOiJIUzI1NiIsInR5cCI6IkpXVCJ9.eyJleHAiOiAxNzAwMDAwMDAwfQ.c2ln"
      "eyJhbGciOiJIUzI1NiIsInR5cCI6IkpXVCJ9".data
      "eyJleHAiOiAxNzAwMDAwMDAwfQ".data "c2ln".data
      "\x7b\"alg\":\"HS256\",\"typ\":\"JWT\"\x7d".data
      "\x7b\"exp\": 1700000000\x7d".data "sig".data
      [("alg", Json.str "HS256"), ("typ", Json.str "JWT")]
      [("exp", Json.num 1700000000)] 1700000000
      rfl rfl rfl rfl rfl rfl rfl rfl⟩

/-- C8 (counterexample): the token hdr.eyJleHAiOiAxNzAwMDAwMDAwfQ.sig has the
form header.payload.signature and its payload segment base64url-decodes to a
JSON object with exp 1700000000 — the full hypothesis of the claim — yet
expire_timestamp raises DecodeError instead of returning 1700000000: jwt.decode
also base64url-decodes and JSON-parses the header segment even with signature
verification disabled, and hdr decodes to the non-JSON bytes 85 da. -/
theorem expire_timestamp_invalid_header_cex :
    splitOnDot "hdr.eyJleHAiOiAxNzAwMDAwMDAwfQ.sig".data =
      ["hdr".data, "eyJleHAiOiAxNzAwMDAwMDAwfQ".data, "sig".data]
    ∧ base64urlDecode "eyJleHAiOiAxNzAwMDAwMDAwfQ".data =
      some "\x7b\"exp\": 1700000000\x7d".data
    ∧ jsonParseChars "\x7b\"exp\": 1700000000\x7d".data =
      some (Json.obj [("exp", Json.num 1700000000)])
    ∧ base64urlDecode "hdr".data = some [Char.ofNat 133, Char.ofNat 218]
    ∧ jsonParseChars [Char.ofNat 133, Char.ofNat 218] = none
    ∧ (EnvoyTokenAuth.init "envoy.local" none none none
        (some "hdr.eyJleHAiOiAxNzAwMDAwMDAwfQ.sig")).expire_timestamp =
      Except.error PyErr.jwtDecodeError :=
  ⟨rfl, rfl, rfl, rfl, rfl, rfl⟩
